import Mathlib

/-!
Verification development for the webAnalyzer repository (src/main.py).

The program is a single-URL website performance analyzer built from
independent probes (TTFB, response time, TLS, headers, web vitals,
network/resource analysis), an aggregator that merges all probe results
into one report, and a rule-based recommendation engine.

The embedding below models every external collaborator behaviour
(HTTP client, TLS stack, headless browser, HTML parser) as an explicit
environment record; the Python code paths are translated directly.
Python floats are modelled as rationals, Python None as Option.none,
raised/caught Python exceptions as Except values, and Python dicts that
the code builds with fixed keys as structures.  The literal 0.5 of the
source is written mkRat 1 2 and 2000 stays 2000.
-/

namespace WebAnalyzer

/-- A Python exception value: TypeError (raised by an order comparison
against None) or any other caught exception, keyed by a message. -/
inductive PyErr where
  | typeError
  | exception (msg : String)
  deriving DecidableEq, Repr

/-- Python truthiness of a value that is either None or a float:
None and 0.0 are falsy, every other float is truthy. -/
def pyTruthyOptNum : Option ℚ → Bool
  | none => false
  | some v => decide (v ≠ 0)

/-- Python truthiness of a value that is either None or a str:
None and the empty string are falsy, every other string is truthy. -/
def pyTruthyOptStr : Option String → Bool
  | none => false
  | some s => decide (s ≠ "")

/-- requests-style header dictionary lookup, response.headers.get(k):
the value of the first matching key, or None when the key is absent. -/
def dictGet (d : List (String × String)) (k : String) : Option String :=
  (d.find? (fun p => p.1 == k)).map Prod.snd

/-- The nested security_headers dict built by check_headers. -/
structure SecurityHeaders where
  strict_transport_security : Option String
  x_content_type_options : Option String
  x_frame_options : Option String
  content_security_policy : Option String
  deriving DecidableEq, Repr

/-- The dict returned by check_headers on success. -/
structure HeaderSnapshot where
  server : Option String
  content_type : Option String
  content_length : Option String
  cache_control : Option String
  security_headers : SecurityHeaders
  deriving DecidableEq, Repr

/-- The dict returned by check_ssl_security on success: issuer and
subject distinguished names and the notAfter expiry string. -/
structure TlsInfo where
  issuer : List (String × String)
  expiry : String
  subject : List (String × String)
  deriving DecidableEq, Repr

/-- The dict produced by the web-vitals browser script.  loadTime and
domContentLoaded are always numbers; firstPaint and firstContentfulPaint
are None when the browser recorded no such paint entry (JavaScript
undefined is serialized to null by the webdriver protocol). -/
structure WebVitalsDict where
  loadTime : ℚ
  domContentLoaded : ℚ
  firstPaint : Option ℚ
  firstContentfulPaint : Option ℚ
  deriving DecidableEq, Repr

/-- One record of the browser performance-entry script: name, entryType,
duration and initiatorType (None for entries that have no initiator). -/
structure PerfEntry where
  name : String
  entryType : String
  duration : ℚ
  initiatorType : Option String
  deriving DecidableEq, Repr

/-- The network analysis record: the rich (browser) variant or the
basic (HTML parsing) variant, mirroring the two dict shapes built by
analyze_network_performance and _analyze_network_basic. -/
inductive NetworkAnalysis where
  | rich (total_requests : Nat) (slow_resources : List PerfEntry)
      (resource_types : List (Option String × Nat))
  | basic (total_requests : Nat) (resource_types : List (String × Nat))
      (page_size : Nat) (content_type : Option String)
  deriving DecidableEq, Repr

/-- An (issue, recommendation) pair appended by the recommendation engine. -/
structure Recommendation where
  issue : String
  recommendation : String
  deriving DecidableEq, Repr

/-- Rule 1 output constant. -/
def highTtfbRec : Recommendation :=
  ⟨"High Time to First Byte",
   "Optimize server response time, consider caching or CDN usage"⟩

/-- Rule 2 output constant. -/
def sslIssuesRec : Recommendation :=
  ⟨"SSL Certificate Issues",
   "Ensure proper SSL certificate installation and configuration"⟩

/-- Rule 3 output constant. -/
def missingCacheRec : Recommendation :=
  ⟨"Missing Cache Control",
   "Implement proper cache control headers"⟩

/-- Rule 4 output constant. -/
def missingHstsRec : Recommendation :=
  ⟨"Missing HSTS Header",
   "Implement HTTP Strict Transport Security"⟩

/-- Rule 5 output constant. -/
def slowFcpRec : Recommendation :=
  ⟨"Slow First Contentful Paint",
   "Optimize critical rendering path, implement lazy loading"⟩

/-- Outcome of one headless-browser session attempt: whether
webdriver.Chrome( ) succeeds and whether driver.get(url) succeeds. -/
structure BrowserRun where
  launchOk : Bool
  navOk : Bool
  deriving DecidableEq, Repr

/-- The response seen by _analyze_network_basic: the tag counts that the
external HTML parser (BeautifulSoup) reports for the fetched document,
the byte length of response.content, and the response headers. -/
structure BasicFetchResponse where
  scriptTags : Nat
  stylesheetLinks : Nat
  imgTags : Nat
  contentLen : Nat
  headers : List (String × String)
  deriving DecidableEq, Repr

/-- Behaviour of all external collaborators for one analysis run: each
fallible call either yields a value or raises.  seleniumAvailable is the
capability-detector flag set in __init__. -/
structure Env where
  timestamp : String
  ttfbReq : Except PyErr ℚ
  respTimeReq : Except PyErr ℚ
  sslConn : Except PyErr TlsInfo
  headReq : Except PyErr (List (String × String))
  seleniumAvailable : Bool
  vitalsBrowser : BrowserRun
  vitalsScript : Except PyErr WebVitalsDict
  netBrowser : BrowserRun
  netScript : Except PyErr (List PerfEntry)
  basicReq : Except PyErr BasicFetchResponse
  deriving Repr

/-- Whether a browser session was started (webdriver.Chrome returned)
and whether driver.quit( ) was executed before the probe returned. -/
structure SessionTrace where
  launched : Bool
  quitCalled : Bool
  deriving DecidableEq, Repr

/-- measure_ttfb: GET the URL and return response.elapsed.total_seconds( );
on any exception log and return None. -/
def measure_ttfb (e : Env) : Option ℚ :=
  match e.ttfbReq with
  | .ok t => some t
  | .error _ => none

/-- measure_response_time: GET the URL and return the wall-clock elapsed
time; on any exception log and return None. -/
def measure_response_time (e : Env) : Option ℚ :=
  match e.respTimeReq with
  | .ok t => some t
  | .error _ => none

/-- check_ssl_security: TLS handshake on port 443 and certificate
extraction; on any exception log and return None. -/
def check_ssl_security (e : Env) : Option TlsInfo :=
  match e.sslConn with
  | .ok info => some info
  | .error _ => none

/-- check_headers: HEAD the URL and build the header snapshot with
response.headers.get for each named header; on any exception return None. -/
def check_headers (e : Env) : Option HeaderSnapshot :=
  match e.headReq with
  | .error _ => none
  | .ok hdrs => some
      { server := dictGet hdrs "server"
        content_type := dictGet hdrs "content-type"
        content_length := dictGet hdrs "content-length"
        cache_control := dictGet hdrs "cache-control"
        security_headers :=
          { strict_transport_security := dictGet hdrs "strict-transport-security"
            x_content_type_options := dictGet hdrs "x-content-type-options"
            x_frame_options := dictGet hdrs "x-frame-options"
            content_security_policy := dictGet hdrs "content-security-policy" } }

/-- measure_web_vitals, with its session trace.  When selenium is
unavailable the probe is skipped.  Otherwise a driver is created; any
exception from driver creation, navigation or the metrics script is
caught and None is returned; driver.quit( ) is executed only on the
straight-line success path of the source (line 126), so a failure after
launch returns without quitting. -/
def measure_web_vitals (e : Env) : Option WebVitalsDict × SessionTrace :=
  if !e.seleniumAvailable then (none, ⟨false, false⟩)
  else if !e.vitalsBrowser.launchOk then (none, ⟨false, false⟩)
  else if !e.vitalsBrowser.navOk then (none, ⟨true, false⟩)
  else
    match e.vitalsScript with
    | .error _ => (none, ⟨true, false⟩)
    | .ok metrics => (some metrics, ⟨true, true⟩)

/-- Python dict insert-or-increment used for resource_types:
existing keys keep their position, a new key is appended. -/
def bumpCount : List (Option String × Nat) → Option String → List (Option String × Nat)
  | [], k => [(k, 1)]
  | (k2, n) :: rest, k =>
      if k2 = k then (k2, n + 1) :: rest else (k2, n) :: bumpCount rest k

/-- The analysis dict built from the rich-mode performance logs
(lines 155-168): total count, entries with duration > 1000, and
per-initiatorType tallies. -/
def richAnalysis (logs : List PerfEntry) : NetworkAnalysis :=
  NetworkAnalysis.rich logs.length
    (logs.filter (fun en => decide (1000 < en.duration)))
    (logs.foldl (fun acc en => bumpCount acc en.initiatorType) [])

/-- _analyze_network_basic: GET the URL, have the HTML parser count
script tags, stylesheet link tags and img tags, and build the basic
record; on any exception log and return None. -/
def analyze_network_basic (e : Env) : Option NetworkAnalysis :=
  match e.basicReq with
  | .error _ => none
  | .ok r => some (NetworkAnalysis.basic
      (r.scriptTags + r.stylesheetLinks + r.imgTags + 1)
      [("scripts", r.scriptTags), ("stylesheets", r.stylesheetLinks),
       ("images", r.imgTags)]
      r.contentLen
      (dictGet r.headers "content-type"))

/-- analyze_network_performance, with its session trace.  Basic mode is
used directly when selenium is unavailable; otherwise the rich browser
path runs and any exception in it falls back to the basic path.  As in
measure_web_vitals, driver.quit( ) (line 153) runs only on the success
path. -/
def analyze_network_performance (e : Env) : Option NetworkAnalysis × SessionTrace :=
  if !e.seleniumAvailable then (analyze_network_basic e, ⟨false, false⟩)
  else if !e.netBrowser.launchOk then (analyze_network_basic e, ⟨false, false⟩)
  else if !e.netBrowser.navOk then (analyze_network_basic e, ⟨true, false⟩)
  else
    match e.netScript with
    | .error _ => (analyze_network_basic e, ⟨true, false⟩)
    | .ok logs => (some (richAnalysis logs), ⟨true, true⟩)

/-- The aggregated results dict as passed to the recommendation engine
(the keys of the results dict before recommendations are added). -/
structure PerformanceData where
  url : String
  timestamp : String
  ttfb : Option ℚ
  response_time : Option ℚ
  ssl_info : Option TlsInfo
  headers : Option HeaderSnapshot
  web_vitals : Option WebVitalsDict
  network : Option NetworkAnalysis
  deriving DecidableEq, Repr

/-- generate_optimization_recommendations (lines 197-235), translated
conditional by conditional.  Rule 1 guards the comparison with the
truthiness of ttfb, so a None ttfb never reaches the comparison.
Rule 5 reads web_vitals.get with default 0, but the dict built by the
probe always carries the firstContentfulPaint key, so a null value
reaches the comparison and None > 2000 raises TypeError. -/
def generate_optimization_recommendations (performance_data : PerformanceData) :
    Except PyErr (List Recommendation) :=
  let recommendations : List Recommendation := []
  let recommendations :=
    if pyTruthyOptNum performance_data.ttfb
        && decide (mkRat 1 2 < performance_data.ttfb.getD 0) then
      recommendations ++ [highTtfbRec]
    else recommendations
  let recommendations :=
    if performance_data.ssl_info.isSome then recommendations
    else recommendations ++ [sslIssuesRec]
  let recommendations :=
    match performance_data.headers with
    | none => recommendations
    | some headers =>
      let recommendations :=
        if pyTruthyOptStr headers.cache_control then recommendations
        else recommendations ++ [missingCacheRec]
      if pyTruthyOptStr headers.security_headers.strict_transport_security then
        recommendations
      else recommendations ++ [missingHstsRec]
  match performance_data.web_vitals with
  | none => Except.ok recommendations
  | some web_vitals =>
    match web_vitals.firstContentfulPaint with
    | none => Except.error PyErr.typeError
    | some fcp =>
      Except.ok (if (2000 : ℚ) < fcp then recommendations ++ [slowFcpRec]
                 else recommendations)

/-- A Python value stored in the results dict. -/
inductive PyVal where
  | pyNone
  | num (q : ℚ)
  | str (s : String)
  | tls (t : TlsInfo)
  | hdr (h : HeaderSnapshot)
  | vitals (v : WebVitalsDict)
  | net (n : NetworkAnalysis)
  | recList (l : List Recommendation)
  deriving DecidableEq, Repr

/-- Embed an optional float as a dict value. -/
def pyOfOptNum : Option ℚ → PyVal
  | none => .pyNone
  | some q => .num q

/-- Embed an optional TLS record as a dict value. -/
def pyOfOptTls : Option TlsInfo → PyVal
  | none => .pyNone
  | some t => .tls t

/-- Embed an optional header snapshot as a dict value. -/
def pyOfOptHdr : Option HeaderSnapshot → PyVal
  | none => .pyNone
  | some h => .hdr h

/-- Embed an optional web-vitals dict as a dict value. -/
def pyOfOptVitals : Option WebVitalsDict → PyVal
  | none => .pyNone
  | some v => .vitals v

/-- Embed an optional network record as a dict value. -/
def pyOfOptNet : Option NetworkAnalysis → PyVal
  | none => .pyNone
  | some n => .net n

/-- run_complete_analysis (lines 237-256): run every probe in order,
build the results dict, then extend it with the recommendations.  An
exception raised by the recommendation engine propagates (there is no
handler in the aggregator), so no dict is returned in that case. -/
def run_complete_analysis (url : String) (e : Env) :
    Except PyErr (List (String × PyVal)) :=
  let ttfb := measure_ttfb e
  let response_time := measure_response_time e
  let ssl_info := check_ssl_security e
  let headers := check_headers e
  let web_vitals := (measure_web_vitals e).1
  let network := (analyze_network_performance e).1
  let pd : PerformanceData :=
    ⟨url, e.timestamp, ttfb, response_time, ssl_info, headers, web_vitals, network⟩
  match generate_optimization_recommendations pd with
  | .error err => .error err
  | .ok recs => .ok
      [("url", .str url), ("timestamp", .str e.timestamp),
       ("ttfb", pyOfOptNum ttfb), ("response_time", pyOfOptNum response_time),
       ("ssl_info", pyOfOptTls ssl_info), ("headers", pyOfOptHdr headers),
       ("web_vitals", pyOfOptVitals web_vitals), ("network", pyOfOptNet network),
       ("recommendations", .recList recs)]

/-! Rule-by-rule decomposition of the recommendation engine, used to
reason about which rule contributed which entry of the final list. -/

/-- The contribution of rule 1 (lines 200-204). -/
def rule1recs (ttfb : Option ℚ) : List Recommendation :=
  if pyTruthyOptNum ttfb && decide (mkRat 1 2 < ttfb.getD 0) then [highTtfbRec]
  else []

/-- The contribution of rule 2 (lines 206-210). -/
def rule2recs (ssl_info : Option TlsInfo) : List Recommendation :=
  if ssl_info.isSome then [] else [sslIssuesRec]

/-- The contribution of rules 3 and 4 (lines 212-225). -/
def rules34recs : Option HeaderSnapshot → List Recommendation
  | none => []
  | some headers =>
      (if pyTruthyOptStr headers.cache_control then [] else [missingCacheRec]) ++
      (if pyTruthyOptStr headers.security_headers.strict_transport_security then []
       else [missingHstsRec])

/-- The contribution of rule 5 (lines 227-233), which raises TypeError
when the collected vitals dict holds a null firstContentfulPaint. -/
def rule5recs : Option WebVitalsDict → Except PyErr (List Recommendation)
  | none => Except.ok []
  | some web_vitals =>
    match web_vitals.firstContentfulPaint with
    | none => Except.error PyErr.typeError
    | some fcp => Except.ok (if (2000 : ℚ) < fcp then [slowFcpRec] else [])

theorem generate_eq_blocks (pd : PerformanceData) :
    generate_optimization_recommendations pd =
      (rule5recs pd.web_vitals).map
        (fun r5 => rule1recs pd.ttfb ++ rule2recs pd.ssl_info ++
          rules34recs pd.headers ++ r5) := by
  unfold generate_optimization_recommendations rule1recs rule2recs rules34recs rule5recs
  cases hW : pd.web_vitals with
  | none =>
    cases hH : pd.headers <;>
      simp only [Except.map] <;> split_ifs <;> simp
  | some wv =>
    cases hF : wv.firstContentfulPaint <;> cases hH : pd.headers <;>
      simp only [Except.map] <;> split_ifs <;> simp [hF] <;> (try (split <;> simp))

theorem rule1recs_sub (t : Option ℚ) (r : Recommendation)
    (h : r ∈ rule1recs t) : r = highTtfbRec := by
  unfold rule1recs at h
  split at h <;> simp_all

theorem mem_rule1recs (t : Option ℚ) :
    highTtfbRec ∈ rule1recs t ↔ ∃ v, t = some v ∧ mkRat 1 2 < v := by
  cases t with
  | none => simp [rule1recs, pyTruthyOptNum]
  | some v =>
    by_cases h : mkRat 1 2 < v
    · have hv : v ≠ 0 := by
        intro h0
        rw [h0] at h
        exact absurd h (by decide)
      simp [rule1recs, pyTruthyOptNum, h, hv]
    · simp [rule1recs, pyTruthyOptNum, h]

theorem rule2recs_sub (s : Option TlsInfo) (r : Recommendation)
    (h : r ∈ rule2recs s) : r = sslIssuesRec := by
  unfold rule2recs at h
  split at h <;> simp_all

theorem mem_rule2recs (s : Option TlsInfo) :
    sslIssuesRec ∈ rule2recs s ↔ s = none := by
  cases s <;> simp [rule2recs]

theorem rules34recs_sub (hs : Option HeaderSnapshot) (r : Recommendation)
    (h : r ∈ rules34recs hs) : r = missingCacheRec ∨ r = missingHstsRec := by
  cases hs with
  | none => simp [rules34recs] at h
  | some v =>
    simp only [rules34recs, List.mem_append] at h
    rcases h with h | h <;> split at h <;> simp_all

theorem rule5recs_sub (w : Option WebVitalsDict) (l : List Recommendation)
    (hk : rule5recs w = Except.ok l) (r : Recommendation)
    (hm : r ∈ l) : r = slowFcpRec := by
  cases w with
  | none =>
    simp only [rule5recs] at hk
    cases hk
    simp at hm
  | some wv =>
    cases hF : wv.firstContentfulPaint with
    | none => simp [rule5recs, hF] at hk
    | some fcp =>
      simp only [rule5recs, hF] at hk
      cases hk
      split at hm <;> simp_all

theorem generate_ok_parts (pd : PerformanceData) (recs : List Recommendation)
    (h : generate_optimization_recommendations pd = Except.ok recs) :
    ∃ r5, rule5recs pd.web_vitals = Except.ok r5 ∧
      recs = rule1recs pd.ttfb ++ rule2recs pd.ssl_info ++
        rules34recs pd.headers ++ r5 := by
  rw [generate_eq_blocks] at h
  cases h5 : rule5recs pd.web_vitals with
  | error e2 => rw [h5] at h; simp [Except.map] at h
  | ok r5 =>
    rw [h5] at h
    simp only [Except.map, Except.ok.injEq] at h
    exact ⟨r5, rfl, h.symm⟩

/-! Concrete sample reports and environments used as test inputs. -/

/-- A report in which every probe failed: every optional field is None. -/
def pdBase : PerformanceData :=
  { url := "https://example.com", timestamp := "2024-01-01T00:00:00"
    ttfb := none, response_time := none, ssl_info := none, headers := none
    web_vitals := none, network := none }

/-- A sample TLS record. -/
def tlsSample : TlsInfo :=
  ⟨[("organizationName", "DigiCert Inc")], "Jun  1 12:00:00 2026 GMT",
   [("commonName", "example.com")]⟩

/-- Report with ttfb = 1.0 second. -/
def pdTtfbOne : PerformanceData := { pdBase with ttfb := some 1 }

/-- Report with ttfb exactly at the 0.5 boundary. -/
def pdTtfbHalf : PerformanceData := { pdBase with ttfb := some (mkRat 1 2) }

/-- Report whose TLS probe succeeded. -/
def pdSslPresent : PerformanceData := { pdBase with ssl_info := some tlsSample }

/-- Header snapshot with every header absent. -/
def hdrAllNone : HeaderSnapshot :=
  { server := none, content_type := none, content_length := none
    cache_control := none, security_headers := ⟨none, none, none, none⟩ }

/-- Header snapshot whose cache-control and HSTS headers are present but
hold the empty string. -/
def hdrEmptyVals : HeaderSnapshot :=
  { hdrAllNone with
    cache_control := some "",
    security_headers := ⟨some "", none, none, none⟩ }

/-- Report whose header probe succeeded with no cache-control and no HSTS. -/
def pdHeadersNone : PerformanceData := { pdBase with headers := some hdrAllNone }

/-- Report whose header probe succeeded with empty-string values. -/
def pdHeadersEmpty : PerformanceData :=
  { pdBase with headers := some hdrEmptyVals }

/-- Vitals dict in which the browser recorded no paint entries, so both
paint fields were serialized as null. -/
def wvNoFcp : WebVitalsDict := ⟨1200, 800, none, none⟩

/-- Vitals dict with firstContentfulPaint = 2500 ms. -/
def wvFcp2500 : WebVitalsDict := ⟨3000, 1500, some 2400, some 2500⟩

/-- Vitals dict with firstContentfulPaint = 2000 ms exactly. -/
def wvFcp2000 : WebVitalsDict := ⟨2600, 1500, some 1900, some 2000⟩

/-- Report whose collected vitals dict has a null firstContentfulPaint. -/
def pdFcpNull : PerformanceData := { pdBase with web_vitals := some wvNoFcp }

/-- Report with firstContentfulPaint = 2500. -/
def pdFcp2500 : PerformanceData := { pdBase with web_vitals := some wvFcp2500 }

/-- Report with firstContentfulPaint = 2000. -/
def pdFcp2000 : PerformanceData := { pdBase with web_vitals := some wvFcp2000 }

/-- An environment in which every external call raises and the browser
backend is unavailable: every probe fails. -/
def envAllFail : Env :=
  { timestamp := "2024-01-01T00:00:00"
    ttfbReq := .error (.exception "ConnectionError")
    respTimeReq := .error (.exception "ConnectionError")
    sslConn := .error (.exception "SSLError")
    headReq := .error (.exception "ConnectionError")
    seleniumAvailable := false
    vitalsBrowser := ⟨false, false⟩
    vitalsScript := .error (.exception "WebDriverException")
    netBrowser := ⟨false, false⟩
    netScript := .error (.exception "WebDriverException")
    basicReq := .error (.exception "ConnectionError") }

/-- An environment whose browser works but records no paint entries:
the vitals script yields a dict with a null firstContentfulPaint. -/
def envFcpNull : Env :=
  { envAllFail with
    seleniumAvailable := true, vitalsBrowser := ⟨true, true⟩,
    vitalsScript := .ok wvNoFcp, netBrowser := ⟨true, true⟩, netScript := .ok [] }

/-- An environment where the browser launches but navigation raises. -/
def envNavFail : Env :=
  { envAllFail with
    seleniumAvailable := true,
    vitalsBrowser := ⟨true, false⟩, netBrowser := ⟨true, false⟩ }

/-- The response for an HTML page with 3 script tags, 1 stylesheet link,
2 img tags and a 4096-byte body. -/
def basicFetchSample : BasicFetchResponse :=
  ⟨3, 1, 2, 4096, [("content-type", "text/html; charset=utf-8")]⟩

/-- Basic-mode environment whose HTML fetch succeeds. -/
def envBasicOk : Env := { envAllFail with basicReq := .ok basicFetchSample }

/-! Claim theorems. -/

/-- C5: rule 1 adds the High Time to First Byte recommendation iff the
ttfb field holds a number strictly greater than 0.5 (written mkRat 1 2);
in particular the boundary value 0.5 and a null ttfb never fire it. -/
theorem ttfb_rule_fires_iff (pd : PerformanceData) (recs : List Recommendation)
    (h : generate_optimization_recommendations pd = Except.ok recs) :
    highTtfbRec ∈ recs ↔ ∃ v, pd.ttfb = some v ∧ mkRat 1 2 < v := by
  obtain ⟨r5, h5, rfl⟩ := generate_ok_parts pd recs h
  have h2 : highTtfbRec ∉ rule2recs pd.ssl_info := fun hm =>
    absurd (rule2recs_sub _ _ hm) (by decide)
  have h34 : highTtfbRec ∉ rules34recs pd.headers := fun hm => by
    rcases rules34recs_sub _ _ hm with h3 | h3 <;> exact absurd h3 (by decide)
  have h5m : highTtfbRec ∉ r5 := fun hm =>
    absurd (rule5recs_sub _ _ h5 _ hm) (by decide)
  simp [List.mem_append, h2, h34, h5m, mem_rule1recs]

theorem ttfb_rule_fires_iff_witness :
    (highTtfbRec ∈ [highTtfbRec, sslIssuesRec] ↔
      ∃ v, pdTtfbOne.ttfb = some v ∧ mkRat 1 2 < v) ∧
    (highTtfbRec ∈ [sslIssuesRec] ↔
      ∃ v, pdTtfbHalf.ttfb = some v ∧ mkRat 1 2 < v) :=
  ⟨ttfb_rule_fires_iff pdTtfbOne [highTtfbRec, sslIssuesRec] rfl,
   ttfb_rule_fires_iff pdTtfbHalf [sslIssuesRec] rfl⟩

/-- C6: rule 2 adds the SSL Certificate Issues recommendation iff the
ssl_info field is null, whatever the reason; a populated TLS record
never fires it. -/
theorem ssl_rule_fires_iff (pd : PerformanceData) (recs : List Recommendation)
    (h : generate_optimization_recommendations pd = Except.ok recs) :
    sslIssuesRec ∈ recs ↔ pd.ssl_info = none := by
  obtain ⟨r5, h5, rfl⟩ := generate_ok_parts pd recs h
  have h1 : sslIssuesRec ∉ rule1recs pd.ttfb := fun hm =>
    absurd (rule1recs_sub _ _ hm) (by decide)
  have h34 : sslIssuesRec ∉ rules34recs pd.headers := fun hm => by
    rcases rules34recs_sub _ _ hm with h3 | h3 <;> exact absurd h3 (by decide)
  have h5m : sslIssuesRec ∉ r5 := fun hm =>
    absurd (rule5recs_sub _ _ h5 _ hm) (by decide)
  simp [List.mem_append, h1, h34, h5m, mem_rule2recs]

theorem ssl_rule_fires_iff_witness :
    (sslIssuesRec ∈ [sslIssuesRec] ↔ pdBase.ssl_info = none) ∧
    (sslIssuesRec ∈ ([] : List Recommendation) ↔
      pdSslPresent.ssl_info = none) :=
  ⟨ssl_rule_fires_iff pdBase [sslIssuesRec] rfl,
   ssl_rule_fires_iff pdSslPresent [] rfl⟩

/-- C4: with firstContentfulPaint = 2500 rule 5 adds exactly the Slow
First Contentful Paint recommendation; with 2000 it does not (exclusive
boundary); but when the vitals dict was collected with a null
firstContentfulPaint, the engine does not skip rule 5: the source
evaluates None > 2000, which raises TypeError, so no recommendation
list is returned at all. -/
theorem fcp_rule_evaluation :
    generate_optimization_recommendations pdFcp2500 =
      Except.ok [sslIssuesRec, slowFcpRec] ∧
    generate_optimization_recommendations pdFcp2000 =
      Except.ok [sslIssuesRec] ∧
    generate_optimization_recommendations pdFcpNull =
      Except.error PyErr.typeError :=
  ⟨rfl, rfl, rfl⟩

theorem pyTruthyOptStr_empty : pyTruthyOptStr (some "") = false := rfl

/-- C8: when the collected header snapshot has no cache-control value
and no HSTS value, rules 3 and 4 contribute exactly the Missing Cache
Control and Missing HSTS Header recommendations, in that order, and the
final list contains no further entry with either of those issues. -/
theorem headers_rules_both_fire (pd : PerformanceData) (hs : HeaderSnapshot)
    (recs : List Recommendation) (hH : pd.headers = some hs)
    (hcc : hs.cache_control = none)
    (hst : hs.security_headers.strict_transport_security = none)
    (h : generate_optimization_recommendations pd = Except.ok recs) :
    rules34recs pd.headers = [missingCacheRec, missingHstsRec] ∧
    recs.filter (fun r => r == missingCacheRec || r == missingHstsRec) =
      [missingCacheRec, missingHstsRec] := by
  have hblock : rules34recs pd.headers = [missingCacheRec, missingHstsRec] := by
    rw [hH]
    simp [rules34recs, hcc, hst, pyTruthyOptStr]
  refine ⟨hblock, ?_⟩
  obtain ⟨r5, h5, rfl⟩ := generate_ok_parts pd recs h
  have f1 : (rule1recs pd.ttfb).filter
      (fun r => r == missingCacheRec || r == missingHstsRec) = [] :=
    List.filter_eq_nil_iff.mpr (fun a ha => by
      have h1 := rule1recs_sub _ _ ha
      subst h1
      decide)
  have f2 : (rule2recs pd.ssl_info).filter
      (fun r => r == missingCacheRec || r == missingHstsRec) = [] :=
    List.filter_eq_nil_iff.mpr (fun a ha => by
      have h1 := rule2recs_sub _ _ ha
      subst h1
      decide)
  have f5 : r5.filter
      (fun r => r == missingCacheRec || r == missingHstsRec) = [] :=
    List.filter_eq_nil_iff.mpr (fun a ha => by
      have h1 := rule5recs_sub _ _ h5 _ ha
      subst h1
      decide)
  simp [List.filter_append, f1, f2, f5, hblock]

theorem headers_rules_both_fire_witness :
    rules34recs pdHeadersNone.headers = [missingCacheRec, missingHstsRec] ∧
    ([sslIssuesRec, missingCacheRec, missingHstsRec].filter
      (fun r => r == missingCacheRec || r == missingHstsRec)) =
      [missingCacheRec, missingHstsRec] :=
  headers_rules_both_fire pdHeadersNone hdrAllNone
    [sslIssuesRec, missingCacheRec, missingHstsRec] rfl rfl rfl rfl

/-- C10: the engine tests header values by truthiness, so a header that
is present but holds the empty string fires the same missing-header
recommendation as an absent header: an empty cache-control fires rule 3
and an empty HSTS value fires rule 4. -/
theorem empty_header_values_fire (pd : PerformanceData) (hs : HeaderSnapshot)
    (recs : List Recommendation) (hH : pd.headers = some hs)
    (h : generate_optimization_recommendations pd = Except.ok recs) :
    (hs.cache_control = some "" → missingCacheRec ∈ recs) ∧
    (hs.security_headers.strict_transport_security = some "" →
      missingHstsRec ∈ recs) := by
  obtain ⟨r5, h5, rfl⟩ := generate_ok_parts pd recs h
  constructor
  · intro hcc
    have hm : missingCacheRec ∈ rules34recs pd.headers := by
      rw [hH]
      simp [rules34recs, hcc, pyTruthyOptStr_empty]
    simp [List.mem_append, hm]
  · intro hst
    have hm : missingHstsRec ∈ rules34recs pd.headers := by
      rw [hH]
      simp [rules34recs, hst, pyTruthyOptStr_empty]
    simp [List.mem_append, hm]

theorem empty_header_values_fire_witness :
    missingCacheRec ∈ [sslIssuesRec, missingCacheRec, missingHstsRec] ∧
    missingHstsRec ∈ [sslIssuesRec, missingCacheRec, missingHstsRec] :=
  ⟨(empty_header_values_fire pdHeadersEmpty hdrEmptyVals
      [sslIssuesRec, missingCacheRec, missingHstsRec] rfl rfl).1 rfl,
   (empty_header_values_fire pdHeadersEmpty hdrEmptyVals
      [sslIssuesRec, missingCacheRec, missingHstsRec] rfl rfl).2 rfl⟩

/-- C1: when every probe fails the aggregator still returns the report
with exactly the nine keys in order; but the browser behaviour that
yields a vitals dict with a null firstContentfulPaint makes the
recommendation engine raise TypeError, which propagates out of
run_complete_analysis, so for that collaborator behaviour no report is
returned at all. -/
theorem run_complete_analysis_keys_and_crash :
    (run_complete_analysis "https://example.com" envAllFail).map
        (fun r => r.map Prod.fst) =
      Except.ok ["url", "timestamp", "ttfb", "response_time", "ssl_info",
        "headers", "web_vitals", "network", "recommendations"] ∧
    run_complete_analysis "https://example.com" envFcpNull =
      Except.error PyErr.typeError :=
  ⟨rfl, rfl⟩

/-- C3: with a working launch and a failing navigation, both browser
probes return having launched a session without executing
driver.quit( ): the session is not torn down on the failure path. -/
theorem browser_session_leaked :
    (measure_web_vitals envNavFail).2 = ⟨true, false⟩ ∧
    (analyze_network_performance envNavFail).2 = ⟨true, false⟩ :=
  ⟨rfl, rfl⟩

/-- C2 counterexample: in basic mode with a failing HTML fetch the
network probe returns None, so the report's network field is not always
a populated record. -/
theorem network_probe_null_cex :
    (analyze_network_performance envAllFail).1 = none := rfl

/-- The rich browser path of analyze_network_performance fails: basic
mode, failed driver launch, failed navigation, or a raising script. -/
def richPathFails (e : Env) : Prop :=
  e.seleniumAvailable = false ∨ e.netBrowser.launchOk = false ∨
    e.netBrowser.navOk = false ∨ ∃ err, e.netScript = Except.error err

/-- C2 amended: on any failure of the rich path the probe returns
exactly the basic-path result rather than failing; when the rich path
fully succeeds the result is a populated rich record; and the basic
path itself returns None exactly when its own HTTP fetch raises, which
is the one case in which the network field is null. -/
theorem network_fallback_chain (e : Env) :
    (richPathFails e →
      (analyze_network_performance e).1 = analyze_network_basic e) ∧
    (¬ richPathFails e →
      ∃ logs, e.netScript = Except.ok logs ∧
        (analyze_network_performance e).1 = some (richAnalysis logs)) ∧
    (analyze_network_basic e = none ↔ ∃ err, e.basicReq = Except.error err) := by
  refine ⟨?_, ?_, ?_⟩
  · intro hf
    simp only [richPathFails] at hf
    rcases hf with h | h | h | ⟨err, h⟩
    · simp [analyze_network_performance, h]
    · cases hsa : e.seleniumAvailable <;>
        simp [analyze_network_performance, h, hsa]
    · cases hsa : e.seleniumAvailable <;> cases hlo : e.netBrowser.launchOk <;>
        simp [analyze_network_performance, h, hsa, hlo]
    · cases hsa : e.seleniumAvailable <;> cases hlo : e.netBrowser.launchOk <;>
        cases hno : e.netBrowser.navOk <;>
        simp [analyze_network_performance, h, hsa, hlo, hno]
  · intro hnf
    have hsa : e.seleniumAvailable = true := by
      cases hx : e.seleniumAvailable
      · exact absurd (Or.inl hx) hnf
      · rfl
    have hlo : e.netBrowser.launchOk = true := by
      cases hx : e.netBrowser.launchOk
      · exact absurd (Or.inr (Or.inl hx)) hnf
      · rfl
    have hno : e.netBrowser.navOk = true := by
      cases hx : e.netBrowser.navOk
      · exact absurd (Or.inr (Or.inr (Or.inl hx))) hnf
      · rfl
    cases hns : e.netScript with
    | error err => exact absurd (Or.inr (Or.inr (Or.inr ⟨err, hns⟩))) hnf
    | ok logs =>
      exact ⟨logs, rfl,
        by simp [analyze_network_performance, hsa, hlo, hno, hns]⟩
  · unfold analyze_network_basic
    cases hb : e.basicReq <;> simp [hb]

theorem network_fallback_chain_witness :
    (analyze_network_performance envBasicOk).1 = analyze_network_basic envBasicOk ∧
    (analyze_network_basic envBasicOk = none ↔
      ∃ err, envBasicOk.basicReq = Except.error err) :=
  ⟨(network_fallback_chain envBasicOk).1 (Or.inl rfl),
   (network_fallback_chain envBasicOk).2.2⟩

/-- Whether a network record has the basic-mode shape, with every
resource_types key among scripts, stylesheets and images. -/
def basicShape : NetworkAnalysis → Bool
  | .rich _ _ _ => false
  | .basic _ resource_types _ _ =>
      resource_types.all (fun p =>
        p.1 == "scripts" || p.1 == "stylesheets" || p.1 == "images")

/-- C7: in basic mode the web-vitals probe always returns None, and
whatever network record is returned has the basic shape, so its
resource_types keys are a subset of scripts, stylesheets and images. -/
theorem basic_mode_shape (e : Env) (h : e.seleniumAvailable = false) :
    (measure_web_vitals e).1 = none ∧
    ∀ a, (analyze_network_performance e).1 = some a → basicShape a = true := by
  constructor
  · simp [measure_web_vitals, h]
  · intro a ha
    have hb : analyze_network_basic e = some a := by
      simpa [analyze_network_performance, h] using ha
    unfold analyze_network_basic at hb
    cases hr : e.basicReq with
    | error err => rw [hr] at hb; cases hb
    | ok r =>
      rw [hr] at hb
      cases hb
      simp [basicShape]

theorem basic_mode_shape_witness :
    (measure_web_vitals envBasicOk).1 = none ∧
    basicShape (NetworkAnalysis.basic 7
      [("scripts", 3), ("stylesheets", 1), ("images", 2)] 4096
      (some "text/html; charset=utf-8")) = true :=
  ⟨(basic_mode_shape envBasicOk rfl).1,
   (basic_mode_shape envBasicOk rfl).2 _ rfl⟩

/-- C9: when the fetched document parses to 3 script tags, 1 stylesheet
link and 2 img tags with a 4096-byte body, the basic analysis reports
resource_types scripts 3, stylesheets 1, images 2, a total-request
estimate of 7 (the three counts plus one) and page_size 4096. -/
theorem basic_analysis_counts (e : Env) (r : BasicFetchResponse)
    (hb : e.basicReq = Except.ok r) (hs : r.scriptTags = 3)
    (hl : r.stylesheetLinks = 1) (hi : r.imgTags = 2)
    (hc : r.contentLen = 4096) :
    analyze_network_basic e = some (NetworkAnalysis.basic 7
      [("scripts", 3), ("stylesheets", 1), ("images", 2)] 4096
      (dictGet r.headers "content-type")) := by
  unfold analyze_network_basic
  rw [hb]
  simp [hs, hl, hi, hc]

theorem basic_analysis_counts_witness :
    analyze_network_basic envBasicOk = some (NetworkAnalysis.basic 7
      [("scripts", 3), ("stylesheets", 1), ("images", 2)] 4096
      (dictGet basicFetchSample.headers "content-type")) :=
  basic_analysis_counts envBasicOk basicFetchSample rfl rfl rfl rfl rfl

end WebAnalyzer
